import Mathlib

/-!
Verification of the debounced shader hot-reload watcher
(`rust-gpu-hotreload`: `watcher.rs`, `compile.rs`) via a shallow embedding.

Conventions of the embedding:
* Machine time (`std::time::Instant`) is modelled as a `Nat` millisecond
  count; `last.elapsed()` at current time `now` is `now - last`
  (truncated subtraction, with monotone clocks `last ≤ now`).
* Rust panics (`expect`) and fallible constructors are modelled as
  `Except String _` values carrying the panic / error message.
* `OsStr` path components are either valid UTF-8 (carrying the Lean
  string) or not valid UTF-8; a non-UTF-8 file name still has byte-level
  structure in Rust, so the constructor carries the UTF-8 decoding of the
  bytes after its final `.` separator, when that decoding exists — this
  is exactly the data `Path::extension().and_then(|e| e.to_str())`
  consumes.
* Paths are modelled post-normalization, as Rust's `Path::components`
  yields them: an absoluteness flag plus a list of `..` / normal
  components (`CurDir` components are normalized away; Windows prefixes
  are out of scope).
* Locks (`Mutex`) always succeed (no poisoning), and `Sender::send`
  succeeds (the receiver is alive); both match the in-session behaviour
  of the source.
* FFI side effects (`println!`, the real compiler) are modelled as an
  explicit, ordered action trace emitted by the handler; the success of
  a build invocation is an input parameter.
-/

namespace RustGpuHotreload

/-- An OS string: either valid UTF-8, or not.  For a non-UTF-8 string the
constructor records the UTF-8 decoding of the bytes following its final
`.`, if any and if decodable (the only observation the watcher makes of
such a name, via `Path::extension` + `to_str`). -/
inductive OsStr where
  | utf8 (s : String)
  | nonUtf8 (extDecoded : Option String)
  deriving DecidableEq, Repr

/-- `OsStr::to_str`: `some` exactly on valid UTF-8. -/
def OsStr.toStr : OsStr → Option String
  | .utf8 s => some s
  | .nonUtf8 _ => none

/-- One component of a normalized path, as produced by
`Path::components`: either `..` or a normal name. -/
inductive PathComponent where
  | parentDir
  | normal (name : OsStr)
  deriving DecidableEq, Repr

/-- A filesystem path after `Path::components` normalization:
absoluteness flag plus component list.  `/` is `⟨true, []⟩`, the empty
path is `⟨false, []⟩`. -/
structure FsPath where
  isAbsolute : Bool
  components : List PathComponent
  deriving DecidableEq, Repr

/-- `Path::file_name`: the final component when it is a normal name;
`none` when the path is empty, is the root, or ends in `..`. -/
def FsPath.fileName (p : FsPath) : Option OsStr :=
  match p.components.getLast? with
  | some (.normal s) => some s
  | _ => none

/-- `Path::parent`: drop the final component; `none` for the root and
the empty path. -/
def FsPath.parent (p : FsPath) : Option FsPath :=
  match p.components with
  | [] => none
  | _ => some ⟨p.isAbsolute, p.components.dropLast⟩

/-- The characters after the last `.` of a list known to contain `.`. -/
def takeAfterLastDot (l : List Char) : List Char :=
  (l.reverse.takeWhile (fun c => c ≠ '.')).reverse

/-- Rust `Path::extension` restricted to a UTF-8 file name `cs`:
the part after the final `.`, provided some `.` occurs at index ≥ 1
(a leading `.` alone marks a hidden file, not an extension). -/
def extOfName (cs : List Char) : Option (List Char) :=
  match cs with
  | [] => none
  | _ :: rest => if rest.contains '.' then some (takeAfterLastDot rest) else none

/-- `p.extension().and_then(|e| e.to_str())` from the watcher's filter. -/
def FsPath.extensionToStr (p : FsPath) : Option String :=
  match p.fileName with
  | some (.utf8 s) => (extOfName s.data).map fun cs => ⟨cs⟩
  | some (.nonUtf8 extDecoded) => extDecoded
  | none => none

/-- The per-path test of `watcher.rs` line 67:
`p.extension().and_then(|e| e.to_str()) == Some("rs")`. -/
def pathHasRsExt (p : FsPath) : Bool :=
  p.extensionToStr == some "rs"

/-- `notify::event::ModifyKind`. -/
inductive ModifyKind where
  | any | data | metadata | name | other
  deriving DecidableEq, Repr

/-- `notify::event::CreateKind`. -/
inductive CreateKind where
  | any | file | folder | other
  deriving DecidableEq, Repr

/-- `notify::event::RemoveKind`. -/
inductive RemoveKind where
  | any | file | folder | other
  deriving DecidableEq, Repr

/-- `notify::EventKind` (the `Access` sub-kind is irrelevant to the
watcher and collapsed). -/
inductive EventKind where
  | any
  | access
  | create (k : CreateKind)
  | modify (k : ModifyKind)
  | remove (k : RemoveKind)
  | other
  deriving DecidableEq, Repr

/-- `notify::Event`: kind plus affected paths. -/
structure FsEvent where
  kind : EventKind
  paths : List FsPath
  deriving DecidableEq, Repr

/-- `matches!(event.kind, EventKind::Modify(_) | EventKind::Create(_))`
(`watcher.rs` lines 60–63). -/
def kindMatches : EventKind → Bool
  | .modify _ => true
  | .create _ => true
  | _ => false

/-- `event.paths.iter().any(|p| ...extension... == Some("rs"))`
(`watcher.rs` lines 64–67). -/
def isRustFile (paths : List FsPath) : Bool :=
  paths.any pathHasRsExt

/-- The mutable state shared between the event-delivery closure and the
session: `last_compile_time : Mutex<Option<Instant>>` and the signal
queue buffered inside the `mpsc` channel. -/
structure WatcherState where
  lastCompileTime : Option Nat
  pendingSignals : List Unit
  deriving DecidableEq, Repr

/-- The observable actions of one run of the event closure, in execution
order. -/
inductive Action where
  | setLastTime (t : Nat)
  | runBuild (ok : Bool)
  | reportError
  | sendSignal
  deriving DecidableEq, Repr

/-- The event-handler closure of `watcher.rs` lines 58–98, as a function
of the debounce window, the outcome the compiler would report
(`buildOk`), the current instant `now`, the shared state, and the event.
Returns the updated shared state and the ordered trace of actions. -/
def handleEvent (debounceMs : Nat) (buildOk : Bool) (now : Nat)
    (st : WatcherState) (e : FsEvent) : WatcherState × List Action :=
  if kindMatches e.kind then
    if isRustFile e.paths then
      let suppressed :=
        match st.lastCompileTime with
        | some last => decide (now - last < debounceMs)
        | none => false
      if suppressed then (st, [])
      else
        let st1 : WatcherState := { st with lastCompileTime := some now }
        if buildOk then
          ({ st1 with pendingSignals := st1.pendingSignals ++ [()] },
           [.setLastTime now, .runBuild true, .sendSignal])
        else
          (st1, [.setLastTime now, .runBuild false, .reportError])
    else (st, [])
  else (st, [])

/-- The closure's outermost `if let Ok(event) = res`: a transport-level
watch error is a no-op. -/
def handleRaw (debounceMs : Nat) (buildOk : Bool) (now : Nat)
    (st : WatcherState) : Except String FsEvent → WatcherState × List Action
  | .ok e => handleEvent debounceMs buildOk now st e
  | .error _ => (st, [])

/-- Run a sequence of raw events through the handler; each entry is
(arrival instant, event, outcome a build at that point would have),
accumulating the action trace. -/
def runEvents (debounceMs : Nat) (st : WatcherState) :
    List (Nat × FsEvent × Bool) → WatcherState × List Action
  | [] => (st, [])
  | (now, e, ok) :: rest =>
      let (st1, acts) := handleEvent debounceMs ok now st e
      let (st2, acts') := runEvents debounceMs st1 rest
      (st2, acts ++ acts')

/-- Number of build invocations in a trace. -/
def buildCount (acts : List Action) : Nat :=
  acts.countP fun a => match a with | .runBuild _ => true | _ => false

/-- Number of published signals in a trace. -/
def signalCount (acts : List Action) : Nat :=
  acts.countP fun a => match a with | .sendSignal => true | _ => false

/-- The drain loop of `check_for_reload` (`watcher.rs` lines 120–123):
`while receiver.try_recv().is_ok() { has_reload = true }`. -/
def drainAll : List Unit → Bool → Bool
  | [], acc => acc
  | _ :: rest, _ => drainAll rest true

/-- `ShaderHotReloader::check_for_reload` (`watcher.rs` lines 117–128):
drains every buffered signal, returns whether any was present.  The lock
acquisition succeeds (no poisoning). -/
def checkForReload (st : WatcherState) : Bool × WatcherState :=
  (drainAll st.pendingSignals false, { st with pendingSignals := [] })

/-- Parse a string into normalized path components: split on `/`, drop
empty and `.` pieces, map `..` to `parentDir`. -/
def parseComponents (s : String) : List PathComponent :=
  (s.data.splitOn '/').filterMap fun cs =>
    if cs = [] then none
    else if cs = ['.'] then none
    else if cs = ['.', '.'] then some .parentDir
    else some (.normal (.utf8 ⟨cs⟩))

/-- Parse a string into a path (`PathBuf::from`): absolute iff it starts
with `/`. -/
def parsePath (s : String) : FsPath :=
  ⟨s.data.head? = some '/', parseComponents s⟩

/-- `PathBuf::join` with a string fragment: an absolute fragment
replaces the path, a relative one appends its components. -/
def FsPath.joinStr (p : FsPath) (s : String) : FsPath :=
  if s.data.head? = some '/' then parsePath s
  else ⟨p.isAbsolute, p.components ++ parseComponents s⟩

/-- `shader_crate_name.replace('-', "_")` (`compile.rs` line 160). -/
def normalizeCrateName (s : String) : String :=
  ⟨s.data.map fun c => if c = '-' then '_' else c⟩

/-- The workspace-root lookup of `calculate_shader_output_dir`
(`compile.rs` lines 149–158): `CARGO_WORKSPACE_DIR`, or else the parent
of `CARGO_MANIFEST_DIR`.  Environment variables are modelled as optional
already-parsed paths (`env::var` only succeeds on valid UTF-8 values). -/
def resolveWorkspaceRoot (cargoWorkspaceDir : Option FsPath)
    (cargoManifestDir : Option FsPath) : Option FsPath :=
  match cargoWorkspaceDir with
  | some w => some w
  | none => cargoManifestDir.bind fun p => p.parent

/-- `calculate_shader_output_dir` (`compile.rs` lines 144–169).  The
`expect("Could not determine workspace root")` panic is modelled as an
`Except.error` carrying the panic message. -/
def calculate_shader_output_dir (cargoWorkspaceDir cargoManifestDir : Option FsPath)
    (shader_crate_name target profile : String) : Except String FsPath :=
  match resolveWorkspaceRoot cargoWorkspaceDir cargoManifestDir with
  | none => .error "Could not determine workspace root"
  | some workspace_root =>
      let shader_crate_name_normalized := normalizeCrateName shader_crate_name
      .ok ((((((workspace_root.joinStr "target").joinStr "spirv-builder").joinStr
        target).joinStr profile).joinStr "deps").joinStr
          (shader_crate_name_normalized ++ ".spvs"))

/-- `DEFAULT_TARGET` (`lib.rs` line 69). -/
def DEFAULT_TARGET : String := "spirv-unknown-vulkan1.3"

/-- `ShaderOutputDir` (`compile.rs` lines 41–44): wraps the resolved
output path. -/
structure ShaderOutputDir where
  path : FsPath
  deriving DecidableEq, Repr

/-- `ShaderOutputDir::new` (`compile.rs` lines 54–65), threading the
environment and propagating the resolver's panic as `Except.error`. -/
def ShaderOutputDir.new (cargoWorkspaceDir cargoManifestDir : Option FsPath)
    (shader_crate_name : String) (target profile : Option String) :
    Except String ShaderOutputDir :=
  (calculate_shader_output_dir cargoWorkspaceDir cargoManifestDir
    shader_crate_name (target.getD DEFAULT_TARGET) (profile.getD "release")).map
    fun path => ⟨path⟩

/-- `ShaderOutputDir::from_crate_path` (`compile.rs` lines 80–91):
extract the crate name from the path's final component;
`.expect("Invalid shader crate path")` is modelled as `Except.error`
carrying the panic message. -/
def ShaderOutputDir.from_crate_path (cargoWorkspaceDir cargoManifestDir : Option FsPath)
    (shader_crate_path : FsPath) (target profile : Option String) :
    Except String ShaderOutputDir :=
  match shader_crate_path.fileName with
  | none => .error "Invalid shader crate path"
  | some os =>
      match os.toStr with
      | none => .error "Invalid shader crate path"
      | some crate_name =>
          ShaderOutputDir.new cargoWorkspaceDir cargoManifestDir crate_name target profile

/-- The observable steps of `ShaderHotReloader::new_with_config`
(`watcher.rs` lines 27–110), in execution order. -/
inductive SetupAction where
  | initialBuild (ok : Bool)
  | createWatcher (ok : Bool)
  | registerWatch (ok : Bool)
  deriving DecidableEq, Repr

/-- Construction errors of `new_with_config`, by failing step. -/
inductive ConstructError where
  | initialBuildError
  | watcherCreateError
  | watchRegisterError
  deriving DecidableEq, Repr

/-- The constructed session: its shared watcher state (the channel is
created empty and `last_compile_time` starts as `None`). -/
structure ShaderHotReloader where
  state : WatcherState
  deriving DecidableEq, Repr

/-- `ShaderHotReloader::new_with_config` (`watcher.rs` lines 27–110) as
a function of the outcomes of its three fallible steps: the mandatory
initial `compile_shaders` call (line 43), `RecommendedWatcher::new`
(line 57), and `watcher.watch` (line 102).  Each `?` returns the error;
the action trace records which steps ran. -/
def new_with_config (initialBuildOk watcherCreateOk watchRegisterOk : Bool) :
    Except ConstructError ShaderHotReloader × List SetupAction :=
  if initialBuildOk = false then
    (.error .initialBuildError, [.initialBuild false])
  else if watcherCreateOk = false then
    (.error .watcherCreateError, [.initialBuild true, .createWatcher false])
  else if watchRegisterOk = false then
    (.error .watchRegisterError,
     [.initialBuild true, .createWatcher true, .registerWatch false])
  else
    (.ok ⟨⟨none, []⟩⟩,
     [.initialBuild true, .createWatcher true, .registerWatch true])

/-! ### Basic facts about one run of the event handler -/

/-- An event of non-matching kind is a no-op. -/
lemma handleEvent_of_kind_false (dm : Nat) (ok : Bool) (now : Nat)
    (st : WatcherState) (e : FsEvent) (h : kindMatches e.kind = false) :
    handleEvent dm ok now st e = (st, []) := by
  simp [handleEvent, h]

/-- An event with no `.rs` path is a no-op. -/
lemma handleEvent_of_no_rs (dm : Nat) (ok : Bool) (now : Nat)
    (st : WatcherState) (e : FsEvent) (h : isRustFile e.paths = false) :
    handleEvent dm ok now st e = (st, []) := by
  unfold handleEvent
  rw [h]
  split <;> rfl

/-- A debounce-suppressed event is a no-op: a previous accepted instant
exists and the elapsed time is still below the window. -/
lemma handleEvent_suppressed (dm : Nat) (ok : Bool) (now : Nat)
    (st : WatcherState) (e : FsEvent) (last : Nat)
    (hl : st.lastCompileTime = some last) (hlt : now - last < dm) :
    handleEvent dm ok now st e = (st, []) := by
  unfold handleEvent
  rw [hl]
  simp [hlt]

/-- An accepted qualifying event: the debounce clock is set to `now`,
the build runs, and on success one signal is appended. -/
lemma handleEvent_accept (dm : Nat) (ok : Bool) (now : Nat)
    (st : WatcherState) (e : FsEvent)
    (hk : kindMatches e.kind = true) (hr : isRustFile e.paths = true)
    (hacc : ∀ last, st.lastCompileTime = some last → dm ≤ now - last) :
    handleEvent dm ok now st e =
      (⟨some now, st.pendingSignals ++ if ok then [()] else []⟩,
       if ok then [.setLastTime now, .runBuild true, .sendSignal]
       else [.setLastTime now, .runBuild false, .reportError]) := by
  unfold handleEvent
  rw [hk, hr]
  cases hl : st.lastCompileTime with
  | none => cases ok <;> simp
  | some last =>
      have h1 : ¬ now - last < dm := Nat.not_lt.mpr (hacc last hl)
      cases ok <;> simp [h1]

/-- A run through an all-suppressed burst leaves state and trace
untouched. -/
lemma runEvents_all_suppressed (dm t0 : Nat) (st : WatcherState)
    (rest : List (Nat × FsEvent × Bool))
    (hst : st.lastCompileTime = some t0)
    (hrest : ∀ x ∈ rest, x.1 - t0 < dm) :
    runEvents dm st rest = (st, []) := by
  induction rest with
  | nil => rfl
  | cons x xs ih =>
      obtain ⟨now, e, ok⟩ := x
      have h1 : handleEvent dm ok now st e = (st, []) :=
        handleEvent_suppressed dm ok now st e t0 hst
          (hrest _ (List.mem_cons_self _ _))
      have h2 : runEvents dm st xs = (st, []) :=
        ih fun x hx => hrest x (List.mem_cons_of_mem _ hx)
      simp [runEvents, h1, h2]

/-! ### Claims C5, C6, C7 -/

/-- C5 (counterexample): the claim asserts that metadata-only changes
are among the discarded event kinds, but `notify` delivers a
metadata-only change as `EventKind::Modify(ModifyKind::Metadata)`, which
the handler's `Modify(_)` pattern accepts: with an `.rs` path it
triggers a full build and, on success, a signal. -/
theorem metadata_event_triggers_build :
    (handleEvent 500 true 1000 ⟨none, []⟩
        ⟨.modify .metadata, [⟨false, [.normal (.utf8 "lib.rs")]⟩]⟩).2
      = [.setLastTime 1000, .runBuild true, .sendSignal] ∧
    buildCount (handleEvent 500 true 1000 ⟨none, []⟩
        ⟨.modify .metadata, [⟨false, [.normal (.utf8 "lib.rs")]⟩]⟩).2 = 1 := by
  constructor <;> rfl

/-- C5 (amended): every raw event whose kind is neither `Create(_)` nor
`Modify(_)` — deletes, access events, `Any`, `Other` — is discarded with
no build, no signal, and no state change.  (Metadata-only changes are
`Modify(Metadata)` and are **not** discarded.) -/
theorem event_kind_filter (dm : Nat) (ok : Bool) (now : Nat)
    (st : WatcherState) (e : FsEvent)
    (hc : ∀ k, e.kind ≠ EventKind.create k)
    (hm : ∀ k, e.kind ≠ EventKind.modify k) :
    handleEvent dm ok now st e = (st, []) := by
  apply handleEvent_of_kind_false
  cases hk : e.kind with
  | create k => exact absurd hk (hc k)
  | modify k => exact absurd hk (hm k)
  | _ => rfl

/-- C5 (witness): a delete event with an `.rs` path is a no-op. -/
theorem event_kind_filter_witness :
    handleEvent 500 true 1000 ⟨none, []⟩
        ⟨.remove .file, [⟨false, [.normal (.utf8 "lib.rs")]⟩]⟩
      = (⟨none, []⟩, []) :=
  event_kind_filter 500 true 1000 ⟨none, []⟩
    ⟨.remove .file, [⟨false, [.normal (.utf8 "lib.rs")]⟩]⟩
    (fun _ h => nomatch h) (fun _ h => nomatch h)

/-- C6: for a create/modify event, if no affected path has the watched
`.rs` extension nothing happens; if at least one does (however many),
the handler that accepts the event runs exactly one build. -/
theorem extension_filter (dm : Nat) (ok : Bool) (now : Nat)
    (st : WatcherState) (e : FsEvent) (hk : kindMatches e.kind = true) :
    ((∀ p ∈ e.paths, pathHasRsExt p = false) →
      handleEvent dm ok now st e = (st, [])) ∧
    ((∃ p ∈ e.paths, pathHasRsExt p = true) →
      (∀ last, st.lastCompileTime = some last → dm ≤ now - last) →
      buildCount (handleEvent dm ok now st e).2 = 1 ∧
      signalCount (handleEvent dm ok now st e).2 ≤ 1) := by
  constructor
  · intro hnone
    apply handleEvent_of_no_rs
    simp only [isRustFile, List.any_eq_false]
    intro p hp
    simp [hnone p hp]
  · intro hex hacc
    have hr : isRustFile e.paths = true := by
      simp only [isRustFile, List.any_eq_true]
      obtain ⟨p, hp, hrs⟩ := hex
      exact ⟨p, hp, hrs⟩
    rw [handleEvent_accept dm ok now st e hk hr hacc]
    cases ok <;> simp [buildCount, signalCount]

/-- C6 (witness): an event touching two `.rs` files and one `.txt` file
triggers exactly one build; an event touching only a `.txt` file
triggers nothing. -/
theorem extension_filter_witness :
    buildCount (handleEvent 500 true 0 ⟨none, []⟩
        ⟨.modify .data,
         [⟨false, [.normal (.utf8 "a.rs")]⟩,
          ⟨false, [.normal (.utf8 "b.rs")]⟩,
          ⟨false, [.normal (.utf8 "c.txt")]⟩]⟩).2 = 1 ∧
    handleEvent 500 true 0 ⟨none, []⟩
        ⟨.modify .data, [⟨false, [.normal (.utf8 "c.txt")]⟩]⟩
      = (⟨none, []⟩, []) := by
  constructor
  · exact ((extension_filter 500 true 0 ⟨none, []⟩
      ⟨.modify .data,
       [⟨false, [.normal (.utf8 "a.rs")]⟩,
        ⟨false, [.normal (.utf8 "b.rs")]⟩,
        ⟨false, [.normal (.utf8 "c.txt")]⟩]⟩ rfl).2
      ⟨⟨false, [.normal (.utf8 "a.rs")]⟩, by simp, by rfl⟩
      (fun last h => nomatch h)).1
  · exact (extension_filter 500 true 0 ⟨none, []⟩
      ⟨.modify .data, [⟨false, [.normal (.utf8 "c.txt")]⟩]⟩ rfl).1
      (by intro p hp; simp at hp; subst hp; rfl)

/-- C7: when the mandatory initial build fails, construction returns an
error immediately: the watcher is never created, no watch is ever
registered, and no session value is produced. -/
theorem initial_build_fail_fast (watcherCreateOk watchRegisterOk : Bool) :
    new_with_config false watcherCreateOk watchRegisterOk
      = (.error .initialBuildError, [.initialBuild false]) ∧
    (∀ ok, SetupAction.registerWatch ok ∉
      (new_with_config false watcherCreateOk watchRegisterOk).2) ∧
    (∀ s, (new_with_config false watcherCreateOk watchRegisterOk).1 ≠ .ok s) := by
  refine ⟨rfl, ?_, ?_⟩
  · intro ok h
    simp [new_with_config] at h
  · intro s h
    simp [new_with_config] at h

/-! ### Claims C1–C4 -/

/-- C1: for a burst of events whose first member qualifies and is
accepted (fresh debounce clock), with every later member arriving
strictly within the debounce window of the first, exactly one build
runs, exactly `1` signal is published when that build succeeds and `0`
otherwise (hence at most one), and the debounce clock ends at the first
event's instant. -/
theorem debounce_suppression (dm t0 : Nat) (e0 : FsEvent) (ok0 : Bool)
    (rest : List (Nat × FsEvent × Bool)) (sigs : List Unit)
    (hk : kindMatches e0.kind = true) (hr : isRustFile e0.paths = true)
    (hrest : ∀ x ∈ rest, x.1 - t0 < dm) :
    buildCount (runEvents dm ⟨none, sigs⟩ ((t0, e0, ok0) :: rest)).2 = 1 ∧
    signalCount (runEvents dm ⟨none, sigs⟩ ((t0, e0, ok0) :: rest)).2
      = (if ok0 then 1 else 0) ∧
    (runEvents dm ⟨none, sigs⟩ ((t0, e0, ok0) :: rest)).1.lastCompileTime
      = some t0 := by
  have hfirst : handleEvent dm ok0 t0 ⟨none, sigs⟩ e0 =
      (⟨some t0, sigs ++ if ok0 then [()] else []⟩,
       if ok0 then [.setLastTime t0, .runBuild true, .sendSignal]
       else [.setLastTime t0, .runBuild false, .reportError]) :=
    handleEvent_accept dm ok0 t0 ⟨none, sigs⟩ e0 hk hr (fun _ h => nomatch h)
  have htail : runEvents dm ⟨some t0, sigs ++ if ok0 then [()] else []⟩ rest
      = (⟨some t0, sigs ++ if ok0 then [()] else []⟩, []) :=
    runEvents_all_suppressed dm t0 _ rest rfl hrest
  simp only [runEvents, hfirst, htail]
  cases ok0 <;> simp [buildCount, signalCount]

/-- C1 (witness): debounce window 500 ms, first qualifying event at
t=0 accepted with a successful build, two more qualifying events at
t=100 and t=400: one build, one signal. -/
theorem debounce_suppression_witness :
    buildCount (runEvents 500 ⟨none, []⟩
      [(0, ⟨.modify .data, [⟨false, [.normal (.utf8 "a.rs")]⟩]⟩, true),
       (100, ⟨.modify .data, [⟨false, [.normal (.utf8 "a.rs")]⟩]⟩, true),
       (400, ⟨.create .file, [⟨false, [.normal (.utf8 "b.rs")]⟩]⟩, true)]).2 = 1 ∧
    signalCount (runEvents 500 ⟨none, []⟩
      [(0, ⟨.modify .data, [⟨false, [.normal (.utf8 "a.rs")]⟩]⟩, true),
       (100, ⟨.modify .data, [⟨false, [.normal (.utf8 "a.rs")]⟩]⟩, true),
       (400, ⟨.create .file, [⟨false, [.normal (.utf8 "b.rs")]⟩]⟩, true)]).2
      = (if true then 1 else 0) := by
  have h := debounce_suppression 500 0
    ⟨.modify .data, [⟨false, [.normal (.utf8 "a.rs")]⟩]⟩ true
    [(100, ⟨.modify .data, [⟨false, [.normal (.utf8 "a.rs")]⟩]⟩, true),
     (400, ⟨.create .file, [⟨false, [.normal (.utf8 "b.rs")]⟩]⟩, true)]
    [] rfl rfl (by decide)
  exact ⟨h.1, h.2.1⟩

/-- C2: a signal appears in the trace exactly when a build ran for the
event and succeeded; a failed build reports its error and never sends a
signal; the channel grows by one signal exactly when a signal was sent;
and after an accepted-but-failed build the session stays usable — any
qualifying event arriving once the debounce window has elapsed runs a
build again. -/
theorem signal_iff_build_success (dm : Nat) (ok : Bool) (now : Nat)
    (st : WatcherState) (e : FsEvent) :
    (Action.sendSignal ∈ (handleEvent dm ok now st e).2 ↔
      Action.runBuild true ∈ (handleEvent dm ok now st e).2 ∧ ok = true) ∧
    ((handleEvent dm ok now st e).1.pendingSignals =
      if Action.sendSignal ∈ (handleEvent dm ok now st e).2
      then st.pendingSignals ++ [()] else st.pendingSignals) ∧
    (ok = false → Action.sendSignal ∉ (handleEvent dm ok now st e).2 ∧
      (∀ b, Action.runBuild b ∈ (handleEvent dm ok now st e).2 →
        Action.reportError ∈ (handleEvent dm ok now st e).2)) ∧
    (ok = false → kindMatches e.kind = true → isRustFile e.paths = true →
      (∀ last, st.lastCompileTime = some last → dm ≤ now - last) →
      ∀ (ok' : Bool) (now' : Nat) (e' : FsEvent),
        kindMatches e'.kind = true → isRustFile e'.paths = true →
        dm ≤ now' - now →
        Action.runBuild ok' ∈
          (handleEvent dm ok' now' (handleEvent dm ok now st e).1 e').2) := by
  have hrec : ok = false → kindMatches e.kind = true → isRustFile e.paths = true →
      (∀ last, st.lastCompileTime = some last → dm ≤ now - last) →
      ∀ (ok' : Bool) (now' : Nat) (e' : FsEvent),
        kindMatches e'.kind = true → isRustFile e'.paths = true →
        dm ≤ now' - now →
        Action.runBuild ok' ∈
          (handleEvent dm ok' now' (handleEvent dm ok now st e).1 e').2 := by
    intro hok hk hr hacc ok' now' e' hk' hr' hwin
    rw [hok, handleEvent_accept dm false now st e hk hr hacc]
    have hacc' : ∀ last,
        (WatcherState.mk (some now) (st.pendingSignals ++ if false then [()] else [])).lastCompileTime
          = some last → dm ≤ now' - last := by
      intro last h
      simp at h
      omega
    rw [handleEvent_accept dm ok' now' _ e' hk' hr' hacc']
    cases ok' <;> simp
  refine ⟨?_, ?_, ?_, hrec⟩
  all_goals
    cases hk : kindMatches e.kind with
    | false =>
        rw [handleEvent_of_kind_false dm ok now st e hk]
        simp
    | true =>
        cases hr : isRustFile e.paths with
        | false =>
            rw [handleEvent_of_no_rs dm ok now st e hr]
            simp
        | true =>
            cases hl : st.lastCompileTime with
            | some last =>
                cases hlt : decide (now - last < dm) with
                | true =>
                    rw [handleEvent_suppressed dm ok now st e last hl
                      (of_decide_eq_true hlt)]
                    simp
                | false =>
                    have hge : dm ≤ now - last :=
                      Nat.not_lt.mp (of_decide_eq_false hlt)
                    rw [handleEvent_accept dm ok now st e hk hr
                      (fun l hsome => by rw [hl] at hsome; cases hsome; exact hge)]
                    cases ok <;> simp
            | none =>
                rw [handleEvent_accept dm ok now st e hk hr
                  (fun l hsome => by rw [hl] at hsome; cases hsome)]
                cases ok <;> simp

/-- C2 (witness): a failed build at t=0 sends no signal, and a
qualifying event at t=600 (past the 500 ms window) runs a build
again. -/
theorem signal_iff_build_success_witness :
    (Action.sendSignal ∉ (handleEvent 500 false 0 ⟨none, []⟩
        ⟨.modify .data, [⟨false, [.normal (.utf8 "a.rs")]⟩]⟩).2) ∧
    Action.runBuild true ∈ (handleEvent 500 true 600
        (handleEvent 500 false 0 ⟨none, []⟩
          ⟨.modify .data, [⟨false, [.normal (.utf8 "a.rs")]⟩]⟩).1
        ⟨.modify .data, [⟨false, [.normal (.utf8 "a.rs")]⟩]⟩).2 := by
  have h := signal_iff_build_success 500 false 0 ⟨none, []⟩
    ⟨.modify .data, [⟨false, [.normal (.utf8 "a.rs")]⟩]⟩
  exact ⟨(h.2.2.1 rfl).1,
    h.2.2.2 rfl rfl rfl (fun last hsome => nomatch hsome) true 600
      ⟨.modify .data, [⟨false, [.normal (.utf8 "a.rs")]⟩]⟩ rfl rfl (by decide)⟩

/-- `drainAll` returns its accumulator or-ed with list non-emptiness. -/
lemma drainAll_eq (l : List Unit) (acc : Bool) :
    drainAll l acc = (acc || !l.isEmpty) := by
  induction l generalizing acc with
  | nil => simp [drainAll]
  | cons x xs ih => simp [drainAll, ih]

/-- C3: `check_for_reload` drains every buffered signal, returns `true`
exactly when at least one was buffered, leaves the debounce clock
alone, and an immediately repeated call with no new signals returns
`false`; in particular any backlog of `M ≥ 1` signals coalesces into a
single `true`. -/
theorem check_for_reload_drain (st : WatcherState) :
    ((checkForReload st).1 = true ↔ st.pendingSignals ≠ []) ∧
    (checkForReload st).2 = ⟨st.lastCompileTime, []⟩ ∧
    (checkForReload (checkForReload st).2).1 = false ∧
    (∀ M : Nat, 1 ≤ M → st.pendingSignals.length = M →
      (checkForReload st).1 = true) := by
  refine ⟨?_, rfl, ?_, ?_⟩
  · simp only [checkForReload, drainAll_eq]
    cases st.pendingSignals <;> simp
  · simp [checkForReload, drainAll_eq]
  · intro M hM hlen
    simp only [checkForReload, drainAll_eq]
    cases h : st.pendingSignals with
    | nil => rw [h] at hlen; simp at hlen; omega
    | cons x xs => simp

/-- C3 (witness): a backlog of two signals yields `true` once, then
`false`. -/
theorem check_for_reload_drain_witness :
    (checkForReload ⟨some 7, [(), ()]⟩).1 = true ∧
    (checkForReload (checkForReload ⟨some 7, [(), ()]⟩).2).1 = false := by
  have h := check_for_reload_drain ⟨some 7, [(), ()]⟩
  exact ⟨h.2.2.2 2 (by decide) rfl, h.2.2.1⟩

/-- C4: on an accepted qualifying event the trace starts with
`setLastTime now` at index 0 and `runBuild` only at index 1 — the
debounce clock is recorded before the build begins — the resulting
state carries `some now`, and every event arriving within the window
measured from `now` (the build's start, whatever its outcome or
duration) is suppressed. -/
theorem last_time_recorded_before_build (dm : Nat) (ok : Bool) (now : Nat)
    (st : WatcherState) (e : FsEvent)
    (hk : kindMatches e.kind = true) (hr : isRustFile e.paths = true)
    (hacc : ∀ last, st.lastCompileTime = some last → dm ≤ now - last) :
    (handleEvent dm ok now st e).2.get? 0 = some (.setLastTime now) ∧
    (handleEvent dm ok now st e).2.get? 1 = some (.runBuild ok) ∧
    (handleEvent dm ok now st e).1.lastCompileTime = some now ∧
    (∀ (ok' : Bool) (now' : Nat) (e' : FsEvent), now' - now < dm →
      handleEvent dm ok' now' (handleEvent dm ok now st e).1 e'
        = ((handleEvent dm ok now st e).1, [])) := by
  rw [handleEvent_accept dm ok now st e hk hr hacc]
  refine ⟨?_, ?_, ?_, ?_⟩
  · cases ok <;> rfl
  · cases ok <;> rfl
  · rfl
  · intro ok' now' e' hwin
    exact handleEvent_suppressed dm ok' now' _ e' now rfl hwin

/-- C4 (witness): accepted event at t=1000 with a failed build; the
clock reads 1000 and an event at t=1200 is suppressed. -/
theorem last_time_recorded_before_build_witness :
    (handleEvent 500 false 1000 ⟨none, []⟩
        ⟨.modify .data, [⟨false, [.normal (.utf8 "a.rs")]⟩]⟩).2.get? 0
      = some (.setLastTime 1000) ∧
    (handleEvent 500 true 1200
        (handleEvent 500 false 1000 ⟨none, []⟩
          ⟨.modify .data, [⟨false, [.normal (.utf8 "a.rs")]⟩]⟩).1
        ⟨.modify .data, [⟨false, [.normal (.utf8 "a.rs")]⟩]⟩)
      = ((handleEvent 500 false 1000 ⟨none, []⟩
          ⟨.modify .data, [⟨false, [.normal (.utf8 "a.rs")]⟩]⟩).1, []) := by
  have h := last_time_recorded_before_build 500 false 1000 ⟨none, []⟩
    ⟨.modify .data, [⟨false, [.normal (.utf8 "a.rs")]⟩]⟩ rfl rfl
    (fun last hsome => nomatch hsome)
  exact ⟨h.1, h.2.2.2 true 1200
    ⟨.modify .data, [⟨false, [.normal (.utf8 "a.rs")]⟩]⟩ (by decide)⟩

/-! ### Claims C8–C10: the path resolver -/

/-- A slash-free, non-degenerate string parses as a single normal
component. -/
lemma parseComponents_single (s : String) (hs : '/' ∉ s.data)
    (h1 : s.data ≠ []) (h2 : s.data ≠ ['.']) (h3 : s.data ≠ ['.', '.']) :
    parseComponents s = [.normal (.utf8 s)] := by
  have hsplit : s.data.splitOn '/' = [s.data] := by
    apply List.splitOnP_eq_single
    intro x hx
    simp only [beq_iff_eq]
    intro h
    exact hs (h ▸ hx)
  simp only [parseComponents, hsplit]
  simp [h1, h2, h3]

/-- The crate-name normalization never introduces a `/`. -/
lemma normalizeCrateName_no_slash (s : String) (h : '/' ∉ s.data) :
    '/' ∉ (normalizeCrateName s).data := by
  simp only [normalizeCrateName, List.mem_map]
  rintro ⟨c, hc, hmap⟩
  by_cases hd : c = '-'
  · simp [hd] at hmap
  · simp [hd] at hmap
    exact h (hmap ▸ hc)

/-- The `{name}.spvs` fragment of the resolver: for a slash-free crate
name it is one normal component. -/
lemma parseComponents_spvs (name : String) (h : '/' ∉ name.data) :
    parseComponents (normalizeCrateName name ++ ".spvs")
      = [.normal (.utf8 (normalizeCrateName name ++ ".spvs"))] := by
  have hdata : (normalizeCrateName name ++ ".spvs").data
      = (normalizeCrateName name).data ++ ".spvs".data := String.data_append _ _
  apply parseComponents_single
  · rw [hdata]
    intro hmem
    rcases List.mem_append.mp hmem with hmem | hmem
    · exact normalizeCrateName_no_slash name h hmem
    · simp at hmem
  · rw [hdata]
    intro hnil
    have := congrArg List.length hnil
    simp at this
  · rw [hdata]
    intro heq
    have := congrArg List.length heq
    simp [normalizeCrateName] at this
  · rw [hdata]
    intro heq
    have := congrArg List.length heq
    simp [normalizeCrateName] at this

/-- The `{name}.spvs` fragment never starts with `/`. -/
lemma spvs_head_ne_slash (name : String) (h : '/' ∉ name.data) :
    (normalizeCrateName name ++ ".spvs").data.head? ≠ some '/' := by
  rw [String.data_append]
  cases hd : (normalizeCrateName name).data with
  | nil => simp [hd]
  | cons c cs =>
      simp only [hd, List.cons_append, List.head?_cons]
      intro hc
      have hc' : c = '/' := by injection hc
      have hmem : c ∈ (normalizeCrateName name).data := by
        rw [hd]
        exact List.mem_cons_self c cs
      rw [hc'] at hmem
      exact normalizeCrateName_no_slash name h hmem

/-- C8: when neither `CARGO_WORKSPACE_DIR` nor a `CARGO_MANIFEST_DIR`
with a parent is available, the resolver fails with the
workspace-root error and computes no path. -/
theorem workspace_root_unresolvable (envM : Option FsPath)
    (name target profile : String)
    (h : ∀ m, envM = some m → m.parent = none) :
    calculate_shader_output_dir none envM name target profile
      = .error "Could not determine workspace root" ∧
    ∀ p, calculate_shader_output_dir none envM name target profile ≠ .ok p := by
  have hroot : resolveWorkspaceRoot none envM = none := by
    cases henv : envM with
    | none => rfl
    | some m => simp [resolveWorkspaceRoot, h m henv]
  refine ⟨?_, ?_⟩
  · simp [calculate_shader_output_dir, hroot]
  · intro p hp
    simp [calculate_shader_output_dir, hroot] at hp

/-- C8 (witness): `CARGO_WORKSPACE_DIR` unset, `CARGO_MANIFEST_DIR`
equal to the root `/` (which has no parent). -/
theorem workspace_root_unresolvable_witness :
    calculate_shader_output_dir none (some (parsePath "/"))
        "my-shader" "spirv-unknown-vulkan1.3" "release"
      = .error "Could not determine workspace root" :=
  (workspace_root_unresolvable (some (parsePath "/"))
    "my-shader" "spirv-unknown-vulkan1.3" "release"
    (fun m hm => by cases hm; rfl)).1

/-- Comparison definition following the spec's words: the output path is
`{workspace}/target/spirv-builder/{target}/{profile}/deps/{name}.spvs`
where `{name}` is the crate name with every `-` replaced by `_`. -/
def specOutputDirFormula (workspace : FsPath)
    (name target profile : String) : FsPath :=
  ⟨workspace.isAbsolute,
    workspace.components
      ++ [.normal (.utf8 "target"), .normal (.utf8 "spirv-builder")]
      ++ parseComponents target
      ++ parseComponents profile
      ++ [.normal (.utf8 "deps"),
          .normal (.utf8 (normalizeCrateName name ++ ".spvs"))]⟩

/-- C9: once the workspace root is resolved to `root`, the resolver is a
pure function of its three string inputs and yields exactly the spec
formula `{workspace}/target/spirv-builder/{target}/{profile}/deps/{name}.spvs`
with `-` → `_` in the crate name — for all relative target and profile
strings and slash-free crate names. -/
theorem resolver_formula (envW envM : Option FsPath) (root : FsPath)
    (name target profile : String)
    (hroot : resolveWorkspaceRoot envW envM = some root)
    (ht : target.data.head? ≠ some '/')
    (hp : profile.data.head? ≠ some '/')
    (hn : '/' ∉ name.data) :
    calculate_shader_output_dir envW envM name target profile
      = .ok (specOutputDirFormula root name target profile) := by
  have hjoin : ∀ (p : FsPath) (s : String), s.data.head? ≠ some '/' →
      p.joinStr s = ⟨p.isAbsolute, p.components ++ parseComponents s⟩ := by
    intro p s hne
    simp [FsPath.joinStr, hne]
  simp only [calculate_shader_output_dir, hroot]
  rw [hjoin _ "target" (by decide), hjoin _ "spirv-builder" (by decide),
    hjoin _ target ht, hjoin _ profile hp, hjoin _ "deps" (by decide),
    hjoin _ _ (spvs_head_ne_slash name hn)]
  simp only [specOutputDirFormula, parseComponents_spvs name hn]
  rw [show parseComponents "target" = [.normal (.utf8 "target")] from rfl]
  rw [show parseComponents "spirv-builder" = [.normal (.utf8 "spirv-builder")] from rfl]
  rw [show parseComponents "deps" = [.normal (.utf8 "deps")] from rfl]
  simp [List.append_assoc]

/-- C9 (witness): the default target and profile with crate name
`my-shader` under workspace `/ws` resolve to
`/ws/target/spirv-builder/spirv-unknown-vulkan1.3/release/deps/my_shader.spvs`. -/
theorem resolver_formula_witness :
    calculate_shader_output_dir (some (parsePath "/ws")) none
        "my-shader" "spirv-unknown-vulkan1.3" "release"
      = .ok (specOutputDirFormula (parsePath "/ws")
          "my-shader" "spirv-unknown-vulkan1.3" "release") :=
  resolver_formula (some (parsePath "/ws")) none (parsePath "/ws")
    "my-shader" "spirv-unknown-vulkan1.3" "release"
    rfl (by decide) (by decide) (by decide)

/-- The resolver's only error message is the workspace-root one. -/
lemma calculate_error_msg (envW envM : Option FsPath)
    (name target profile : String) (msg : String)
    (h : calculate_shader_output_dir envW envM name target profile
      = .error msg) :
    msg = "Could not determine workspace root" := by
  unfold calculate_shader_output_dir at h
  cases hroot : resolveWorkspaceRoot envW envM <;> rw [hroot] at h
  · injection h with h'
    exact h'.symm
  · exact nomatch h

/-- C10: `from_crate_path` hits its `expect("Invalid shader crate path")`
panic exactly when the input path has no UTF-8 file name — in
particular on the root `/`, on a path ending in `..`, and on a path
whose final component is not valid UTF-8. -/
theorem from_crate_path_panic_iff (envW envM : Option FsPath)
    (target profile : Option String) (path : FsPath) :
    (ShaderOutputDir.from_crate_path envW envM path target profile
        = .error "Invalid shader crate path"
      ↔ ¬ ∃ s, path.fileName = some (.utf8 s)) ∧
    ShaderOutputDir.from_crate_path envW envM ⟨true, []⟩ target profile
      = .error "Invalid shader crate path" ∧
    ShaderOutputDir.from_crate_path envW envM
        ⟨false, [.normal (.utf8 "crate"), .parentDir]⟩ target profile
      = .error "Invalid shader crate path" ∧
    ShaderOutputDir.from_crate_path envW envM
        ⟨false, [.normal (.nonUtf8 none)]⟩ target profile
      = .error "Invalid shader crate path" := by
  have hvnone : path.fileName = none →
      ShaderOutputDir.from_crate_path envW envM path target profile
        = .error "Invalid shader crate path" := by
    intro hfn
    unfold ShaderOutputDir.from_crate_path
    rw [hfn]
  have hvnon : ∀ x, path.fileName = some (.nonUtf8 x) →
      ShaderOutputDir.from_crate_path envW envM path target profile
        = .error "Invalid shader crate path" := by
    intro x hfn
    unfold ShaderOutputDir.from_crate_path
    rw [hfn]
    rfl
  have hvutf : ∀ s, path.fileName = some (.utf8 s) →
      ShaderOutputDir.from_crate_path envW envM path target profile
        = ShaderOutputDir.new envW envM s target profile := by
    intro s hfn
    unfold ShaderOutputDir.from_crate_path
    rw [hfn]
    rfl
  have hnew : ∀ s, ShaderOutputDir.new envW envM s target profile
      ≠ .error "Invalid shader crate path" := by
    intro s h
    unfold ShaderOutputDir.new at h
    cases hc : calculate_shader_output_dir envW envM s
        (target.getD DEFAULT_TARGET) (profile.getD "release") with
    | ok v => rw [hc] at h; exact nomatch h
    | error msg =>
        rw [hc] at h
        have hmsg := calculate_error_msg envW envM s
          (target.getD DEFAULT_TARGET) (profile.getD "release") msg hc
        injection h with h'
        rw [h'] at hmsg
        exact absurd hmsg (by decide)
  refine ⟨?_, rfl, rfl, rfl⟩
  constructor
  · intro h
    rintro ⟨s, hfn⟩
    rw [hvutf s hfn] at h
    exact hnew s h
  · intro h
    cases hfn : path.fileName with
    | none => exact hvnone hfn
    | some os =>
        cases os with
        | utf8 s => exact absurd ⟨s, hfn⟩ h
        | nonUtf8 x => exact hvnon x hfn

end RustGpuHotreload
